import Mathlib

/-!
Shallow embedding of the InfluxDB v2 connection producer
(plugins/database/influxdbv2): configuration resolution, certificate
assembly, lazy connection establishment and the token permission
verifier, together with proofs of its behavioural properties.

External collaborators (mapstructure.WeakDecode, parseutil, certutil,
tlsutil, the influxdb2 client library and the network) are modelled as
oracle parameters (`ExtOps`, `Env`); everything else is translated
directly from the Go source.
-/

namespace Influxdbv2

/-- A permission attached to an authorization record: an (action,
resource-type) pair.  `resourceType` embeds `permission.Resource.Type`
from the source. -/
structure Permission where
  action : String
  resourceType : String
deriving DecidableEq, Repr

/-- An authorization record returned by the server's authorizations API:
a token together with its permission set. -/
structure Authorization where
  token : String
  permissions : List Permission
deriving DecidableEq, Repr

/-- The four accumulator booleans of `isTokenSufficientAccess`. -/
structure PermFlags where
  hasUserRead : Bool
  hasUserWrite : Bool
  hasOrganizationsRead : Bool
  hasOrganizationsWrite : Bool
deriving DecidableEq, Repr

/-- One step of the first loop over a matching record's permissions:
sets `hasUserRead` / `hasUserWrite` when the permission is
(read, users) / (write, users). -/
def usersStep (f : PermFlags) (p : Permission) : PermFlags :=
  let f1 := if p.action == "read" && p.resourceType == "users" then
    { f with hasUserRead := true } else f
  if p.action == "write" && p.resourceType == "users" then
    { f1 with hasUserWrite := true } else f1

/-- One step of the second loop over a matching record's permissions:
sets `hasOrganizationsRead` / `hasOrganizationsWrite` when the
permission is (read, orgs) / (write, orgs). -/
def orgsStep (f : PermFlags) (p : Permission) : PermFlags :=
  let f1 := if p.action == "read" && p.resourceType == "orgs" then
    { f with hasOrganizationsRead := true } else f
  if p.action == "write" && p.resourceType == "orgs" then
    { f1 with hasOrganizationsWrite := true } else f1

/-- The body of the loop over all authorization records: when the
record's token equals the supplied token the two permission loops run,
otherwise the flags pass through unchanged. -/
def updateAuth (token : String) (f : PermFlags) (a : Authorization) : PermFlags :=
  if a.token == token then
    a.permissions.foldl orgsStep (a.permissions.foldl usersStep f)
  else f

/-- The full scan over the authorization records, starting from all-false
flags. -/
def scanFlags (auths : List Authorization) (token : String) : PermFlags :=
  auths.foldl (updateAuth token) ⟨false, false, false, false⟩

/-- Renders a boolean the way Go's `%t` verb does. -/
def boolStr (b : Bool) : String := if b then "true" else "false"

/-- The diagnostic message built on insufficient permissions; it
enumerates the four accumulator booleans individually. -/
def insufficientMsg (f : PermFlags) : String :=
  "the provided token does not have sufficient permissions in influxdb hasUserRead: "
    ++ boolStr f.hasUserRead
    ++ ", hasUserWrite: " ++ boolStr f.hasUserWrite
    ++ ", hasOrganizationsRead: " ++ boolStr f.hasOrganizationsRead
    ++ ", hasOrganizationsWrite: " ++ boolStr f.hasOrganizationsWrite

/-- `isTokenSufficientAccess`: `authResult` is the outcome of
`cli.AuthorizationsAPI().GetAuthorizations(ctx)` (`none` when that call
fails).  Returns the Go pair (bool, error), with the error modelled as
an optional message. -/
def isTokenSufficientAccess (authResult : Option (List Authorization))
    (token : String) : Bool × Option String :=
  match authResult with
  | none => (false, some "cannot access authorizations API to check token")
  | some auths =>
    let f := scanFlags auths token
    if f.hasUserRead && f.hasUserWrite && f.hasOrganizationsRead
        && f.hasOrganizationsWrite then
      (true, none)
    else
      (false, some (insufficientMsg f))

/-- Whether some record matching `token` grants the (action,
resource-type) permission: the specification-level reading of one
accumulator boolean. -/
def grantsPerm (auths : List Authorization) (token action rtype : String) : Bool :=
  auths.any fun a => a.token == token
    && a.permissions.any fun p => p.action == action && p.resourceType == rtype

/-! Connection producer state, external oracles, and operations. -/

/-- The raw configuration map handed to Initialize. -/
abbrev ConfigMap := List (String × String)

instance exceptDecEq {ε α : Type} [DecidableEq ε] [DecidableEq α] :
    DecidableEq (Except ε α)
  | .error a, .error b =>
    if h : a = b then .isTrue (by rw [h])
    else .isFalse (fun he => h (Except.error.inj he))
  | .error _, .ok _ => .isFalse (fun he => Except.noConfusion he)
  | .ok _, .error _ => .isFalse (fun he => Except.noConfusion he)
  | .ok a, .ok b =>
    if h : a = b then .isTrue (by rw [h])
    else .isFalse (fun he => h (Except.ok.inj he))

/-- A (certificate, private key, issuing CA) triple, as produced by
`certutil`'s `ToCertBundle`. -/
structure CertBundle where
  Certificate : String
  PrivateKey : String
  IssuingCA : String
deriving DecidableEq, Repr

/-- The TLS client configuration handed to the influxdb client options.
`bundle` records which certificate bundle `GetTLSConfig` built it from
(`none` for the empty default `&tls.Config{}`). -/
structure TLSConf where
  bundle : Option CertBundle
  insecureSkipVerify : Bool
  minVersion : Nat
deriving DecidableEq, Repr

/-- The opaque influxdb client handle, recording the parameters it was
constructed with: `tlsOpts = none` for `NewClient`, `some` for
`NewClientWithOptions`. -/
structure Client where
  url : String
  token : String
  tlsOpts : Option TLSConf
deriving DecidableEq, Repr

/-- The mapstructure-decodable (exported, tagged) fields of
`influxdbConnectionProducer`.  `ConnectTimeoutRaw` is `interface{}` in
the source; `none` models Go `nil`. -/
structure ConfigFields where
  Host : String
  Token : String
  Port : String
  TLS : Bool
  InsecureTLS : Bool
  ConnectTimeoutRaw : Option String
  TLSMinVersion : String
  PemBundle : String
  PemJSON : String
  DefaultBucket : String
  Organization : String
deriving DecidableEq, Repr

/-- The producer state: decodable fields plus the unexported fields. -/
structure Producer where
  conf : ConfigFields
  connectTimeout : Nat
  certificate : String
  privateKey : String
  issuingCA : String
  rawConfig : ConfigMap
  Initialized : Bool
  client : Option Client
deriving DecidableEq, Repr

/-- A zero-valued producer, as Go allocates it. -/
def initialProducer : Producer :=
  { conf := { Host := "", Token := "", Port := "", TLS := false,
              InsecureTLS := false, ConnectTimeoutRaw := none,
              TLSMinVersion := "", PemBundle := "", PemJSON := "",
              DefaultBucket := "", Organization := "" }
    connectTimeout := 0, certificate := "", privateKey := "",
    issuingCA := "", rawConfig := [], Initialized := false, client := none }

/-- Oracles for the external libraries: mapstructure weak decoding,
duration parsing, certutil parsing/conversion and the TLS version
lookup table.  Each returns `none` on failure. -/
structure ExtOps where
  weakDecode : ConfigMap → ConfigFields → Option ConfigFields
  parseDuration : String → Option Nat
  parsePKIJSON : String → Option CertBundle
  parsePEMBundle : String → Option CertBundle
  toParsedOk : CertBundle → Bool
  getTLSConfig : CertBundle → Option TLSConf
  tlsLookup : String → Option Nat

/-- The network environment for one establishment attempt: the outcome
of `Ping` (`some msg` = failure) and of the authorizations query
(`none` = the query itself fails). -/
structure Env where
  ping : Option String
  auths : Option (List Authorization)

/-- Observable events of an operation, in order: lock usage, network
calls, and closing a client handle. -/
inductive Event where
  | lockAcquire : Event
  | lockRelease : Event
  | ping : Event
  | authQuery : Event
  | closeClient : Client → Event
deriving DecidableEq, Repr

/-- `connutil.ErrNotInitialized` from the SDK. -/
def errNotInitialized : String := "connection has not been initialized"

/-- The cert bundle rebuilt inside `createClient` from the producer's
stored fields (fields are only copied in when non-empty). -/
def certBundleOf (i : Producer) : CertBundle :=
  { Certificate := if i.certificate.length > 0 then i.certificate else ""
    PrivateKey := if i.certificate.length > 0 then i.privateKey else ""
    IssuingCA := if i.issuingCA.length > 0 then i.issuingCA else "" }

/-- The TLS-configuration step of `createClient`'s TLS branch: the
missing-private-key check, `ToParsedCertBundle` and `GetTLSConfig`, or
the empty default `&tls.Config{}` when no certificate material is
stored. -/
def tlsBase (ext : ExtOps) (i : Producer) : Except String TLSConf :=
  if i.certificate.length > 0 || i.issuingCA.length > 0 then
    if i.certificate.length > 0 && i.privateKey.length == 0 then
      .error "found certificate for TLS authentication but no private key"
    else if ext.toParsedOk (certBundleOf i) then
      match ext.getTLSConfig (certBundleOf i) with
      | none => .error "failed to get TLS configuration"
      | some c => .ok c
    else .error "failed to parse certificate bundle"
  else
    .ok { bundle := none, insecureSkipVerify := false, minVersion := 0 }

/-- The client-construction half of `createClient`: the TLS branch
(certificate checks, TLS config build, insecure flag, minimum version
lookup) and the `NewClientWithOptions` / `NewClient` call.  Performs no
network activity. -/
def buildClient (ext : ExtOps) (i : Producer) : Except String Client :=
  if i.conf.TLS then
    match tlsBase ext i with
    | .error e => .error e
    | .ok tc =>
      if i.conf.TLSMinVersion == "" then
        .ok { url := "http://" ++ i.conf.Host ++ ":" ++ i.conf.Port,
              token := i.conf.Token,
              tlsOpts := some { tc with
                insecureSkipVerify := i.conf.InsecureTLS, minVersion := 0 } }
      else
        match ext.tlsLookup i.conf.TLSMinVersion with
        | none => .error "invalid 'tls_min_version' in config"
        | some v =>
          .ok { url := "http://" ++ i.conf.Host ++ ":" ++ i.conf.Port,
                token := i.conf.Token,
                tlsOpts := some { tc with
                  insecureSkipVerify := i.conf.InsecureTLS, minVersion := v } }
  else
    .ok { url := "http://" ++ i.conf.Host ++ ":" ++ i.conf.Port,
          token := i.conf.Token, tlsOpts := none }

/-- `createClient`: builds the client, pings the server, and verifies
the token's permissions.  Returns the result together with the trace of
network events. -/
def createClient (ext : ExtOps) (env : Env) (i : Producer) :
    Except String Client × List Event :=
  match buildClient ext i with
  | .error e => (.error e, [])
  | .ok cli =>
    match env.ping with
    | some perr => (.error ("error checking cluster status: " ++ perr), [.ping])
    | none =>
      match isTokenSufficientAccess env.auths i.conf.Token with
      | (_, some e) =>
        (.error ("error getting if provided username is admin: " ++ e),
         [.ping, .authQuery])
      | (ok, none) =>
        if ok then (.ok cli, [.ping, .authQuery])
        else (.error "the provided user is missing permissions on the influxDB server",
              [.ping, .authQuery])

/-- `Connection`: no lock is taken in the source.  Returns the new
producer state, the result, and the event trace. -/
def Connection (ext : ExtOps) (env : Env) (i : Producer) :
    Producer × Except String Client × List Event :=
  if i.Initialized then
    match i.client with
    | some c => (i, .ok c, [])
    | none =>
      match createClient ext env i with
      | (.error e, tr) => (i, .error e, tr)
      | (.ok cli, tr) => ({ i with client := some cli }, .ok cli, tr)
  else
    (i, .error errNotInitialized, [])

/-- `Close`: takes the lock, closes a cached client if present, clears
the cache; always succeeds. -/
def Close (i : Producer) : Producer × List Event :=
  match i.client with
  | some c => ({ i with client := none },
               [.lockAcquire, .closeClient c, .lockRelease])
  | none => ({ i with client := none }, [.lockAcquire, .lockRelease])

/-- `secretValues`: the redaction map (insertion order of the Go map
literal); performs no locking and no mutation. -/
def secretValues (i : Producer) : List (String × String) × List Event :=
  ([(i.conf.Token, "[token]"),
    (i.conf.PemBundle, "[pem_bundle]"),
    (i.conf.PemJSON, "[pem_json]")], [])

/-- The request to Initialize. -/
structure InitializeRequest where
  Config : ConfigMap
  VerifyConnection : Bool
deriving DecidableEq, Repr

/-- The two defaults applied by Initialize after weak decoding:
connect timeout "5s" when the raw value is nil, port "8086" when the
decoded port is empty. -/
def applyDefaults (c : ConfigFields) : ConfigFields :=
  { c with
    ConnectTimeoutRaw := some (c.ConnectTimeoutRaw.getD "5s"),
    Port := if c.Port == "" then "8086" else c.Port }

/-- The certificate-assembly switch inside Initialize: the JSON-form
bundle is evaluated first, then the PEM-form bundle; whichever path
runs stores the triple and forces TLS on. -/
def certAssembly (ext : ExtOps) (i : Producer) : Except String Producer :=
  if i.conf.PemJSON.length ≠ 0 then
    match ext.parsePKIJSON i.conf.PemJSON with
    | none => .error "could not parse given JSON; it must be in the format of the output of the PKI backend certificate issuing command"
    | some b => .ok { i with
        certificate := b.Certificate, privateKey := b.PrivateKey,
        issuingCA := b.IssuingCA, conf := { i.conf with TLS := true } }
  else if i.conf.PemBundle.length ≠ 0 then
    match ext.parsePEMBundle i.conf.PemBundle with
    | none => .error "Error parsing the given PEM information"
    | some b => .ok { i with
        certificate := b.Certificate, privateKey := b.PrivateKey,
        issuingCA := b.IssuingCA, conf := { i.conf with TLS := true } }
  else .ok i

/-- `Initialize`: stores the raw config, weak-decodes it, applies the
connect-timeout and port defaults, parses the timeout, validates host
and token, assembles certificates, marks the producer initialized, and
optionally verifies the connection.  The lock is held for the whole
body (acquire first, release last via defer). -/
def Initialize (ext : ExtOps) (env : Env) (i0 : Producer)
    (req : InitializeRequest) :
    Producer × Except String ConfigMap × List Event :=
  match ext.weakDecode req.Config i0.conf with
  | none => ({ i0 with rawConfig := req.Config },
             .error "error decoding config", [.lockAcquire, .lockRelease])
  | some conf0 =>
    match ext.parseDuration (conf0.ConnectTimeoutRaw.getD "5s") with
    | none => ({ i0 with
                 rawConfig := req.Config
                 conf := applyDefaults conf0
                 connectTimeout := 0 },
               .error "invalid connect_timeout", [.lockAcquire, .lockRelease])
    | some d =>
      if (applyDefaults conf0).Host.length = 0 then
        ({ i0 with
           rawConfig := req.Config
           conf := applyDefaults conf0
           connectTimeout := d },
         .error "host cannot be empty", [.lockAcquire, .lockRelease])
      else if (applyDefaults conf0).Token.length = 0 then
        ({ i0 with
           rawConfig := req.Config
           conf := applyDefaults conf0
           connectTimeout := d },
         .error "token cannot be empty", [.lockAcquire, .lockRelease])
      else
        match certAssembly ext { i0 with
            rawConfig := req.Config
            conf := applyDefaults conf0
            connectTimeout := d } with
        | .error e => ({ i0 with
                         rawConfig := req.Config
                         conf := applyDefaults conf0
                         connectTimeout := d },
                       .error e, [.lockAcquire, .lockRelease])
        | .ok i2 =>
          if req.VerifyConnection then
            match Connection ext env { i2 with Initialized := true } with
            | (i4, .error e, tr) =>
              (i4, .error ("error verifying connection: " ++ e),
               .lockAcquire :: tr ++ [.lockRelease])
            | (i4, .ok _, tr) =>
              (i4, .ok req.Config, .lockAcquire :: tr ++ [.lockRelease])
          else ({ i2 with Initialized := true },
                .ok req.Config, [.lockAcquire, .lockRelease])

/-! Concrete fixtures used to evaluate the definitions on closed inputs. -/

/-- Sample authorization list: one record for token `t` granting three
of the four required permissions (write-orgs missing). -/
def auths3 : List Authorization :=
  [{ token := "t",
     permissions := [⟨"read", "users"⟩, ⟨"write", "users"⟩, ⟨"read", "orgs"⟩] }]

/-- Sample authorization list granting all four required permissions. -/
def auths4 : List Authorization :=
  [{ token := "t",
     permissions := [⟨"read", "users"⟩, ⟨"write", "users"⟩,
                     ⟨"read", "orgs"⟩, ⟨"write", "orgs"⟩] }]

/-- A concrete oracle assignment: decoding sets host/token and an
unparseable timeout; duration parsing accepts only "5s"; certificate
parsing succeeds on the fixed inputs below. -/
def extSample : ExtOps :=
  { weakDecode := fun cfg c =>
      some { c with
        Host := (cfg.lookup "host").getD c.Host,
        Token := (cfg.lookup "token").getD c.Token,
        ConnectTimeoutRaw :=
          match cfg.lookup "connect_timeout" with
          | some s => some s
          | none => c.ConnectTimeoutRaw },
    parseDuration := fun s => if s == "5s" then some 5000000000 else none,
    parsePKIJSON := fun s =>
      if s == "jsonbundle" then some ⟨"CERT", "KEY", "CA"⟩ else none,
    parsePEMBundle := fun s =>
      if s == "pembundle" then some ⟨"PCERT", "PKEY", "PCA"⟩ else none,
    toParsedOk := fun _ => true,
    getTLSConfig := fun b => some ⟨some b, false, 0⟩,
    tlsLookup := fun s => if s == "tls12" then some 771 else none }

/-- A healthy environment whose token `t` holds all four permissions. -/
def envOk : Env := { ping := none, auths := some auths4 }

/-- An environment where the probe succeeds but token `t` lacks
write-orgs. -/
def envShort : Env := { ping := none, auths := some auths3 }

/-- An initialized, plaintext producer for token `t`, no cached client. -/
def prodReady : Producer :=
  { initialProducer with
    conf := { initialProducer.conf with
      Host := "h", Token := "t", Port := "8086" },
    Initialized := true }

/-- The plaintext client that `buildClient` constructs for
`prodReady`. -/
def cliPlain : Client := { url := "http://h:8086", token := "t", tlsOpts := none }

/-- An Initialize request whose connect timeout fails to parse. -/
def reqBadTimeout : InitializeRequest :=
  { Config := [("host", "h"), ("token", "t"), ("connect_timeout", "bogus")],
    VerifyConnection := false }

/-- An Initialize request supplying only host and token, without
connection verification. -/
def reqPlain : InitializeRequest :=
  { Config := [("host", "h"), ("token", "t")], VerifyConnection := false }

/-- A fresh producer whose configuration already carries the JSON-form
certificate bundle field. -/
def prodPemJSON : Producer :=
  { initialProducer with
    conf := { initialProducer.conf with PemJSON := "jsonbundle" } }

/-- Whether a `createClient` outcome is the generic
missing-permissions error of the unreachable branch. -/
def isGenericPermError : Except String Client → Bool
  | .error e => e == "the provided user is missing permissions on the influxDB server"
  | .ok _ => false

/-- Whether an event closes a client handle. -/
def isCloseEvent : Event → Bool
  | .closeClient _ => true
  | _ => false

/-! Proof development. -/

/- Characterization of the folds of `isTokenSufficientAccess`. -/

lemma usersStep_spec (f : PermFlags) (p : Permission) :
    usersStep f p =
      { f with
        hasUserRead := f.hasUserRead || (p.action == "read" && p.resourceType == "users"),
        hasUserWrite := f.hasUserWrite || (p.action == "write" && p.resourceType == "users") } := by
  unfold usersStep
  rcases f with ⟨r, w, og, ow⟩
  by_cases h1 : (p.action == "read" && p.resourceType == "users") = true <;>
    by_cases h2 : (p.action == "write" && p.resourceType == "users") = true <;>
      simp [h1, h2]

lemma orgsStep_spec (f : PermFlags) (p : Permission) :
    orgsStep f p =
      { f with
        hasOrganizationsRead := f.hasOrganizationsRead || (p.action == "read" && p.resourceType == "orgs"),
        hasOrganizationsWrite := f.hasOrganizationsWrite || (p.action == "write" && p.resourceType == "orgs") } := by
  unfold orgsStep
  rcases f with ⟨r, w, og, ow⟩
  by_cases h1 : (p.action == "read" && p.resourceType == "orgs") = true <;>
    by_cases h2 : (p.action == "write" && p.resourceType == "orgs") = true <;>
      simp [h1, h2]

lemma usersFold_spec (ps : List Permission) : ∀ f : PermFlags,
    ps.foldl usersStep f =
      { f with
        hasUserRead := f.hasUserRead || ps.any fun p => p.action == "read" && p.resourceType == "users",
        hasUserWrite := f.hasUserWrite || ps.any fun p => p.action == "write" && p.resourceType == "users" } := by
  induction ps with
  | nil => intro f; simp
  | cons p ps ih =>
    intro f
    simp only [List.foldl_cons, List.any_cons, ih, usersStep_spec]
    rcases f with ⟨r, w, og, ow⟩
    simp [Bool.or_assoc]

lemma orgsFold_spec (ps : List Permission) : ∀ f : PermFlags,
    ps.foldl orgsStep f =
      { f with
        hasOrganizationsRead := f.hasOrganizationsRead || ps.any fun p => p.action == "read" && p.resourceType == "orgs",
        hasOrganizationsWrite := f.hasOrganizationsWrite || ps.any fun p => p.action == "write" && p.resourceType == "orgs" } := by
  induction ps with
  | nil => intro f; simp
  | cons p ps ih =>
    intro f
    simp only [List.foldl_cons, List.any_cons, ih, orgsStep_spec]
    rcases f with ⟨r, w, og, ow⟩
    simp [Bool.or_assoc]

lemma updateAuth_spec (token : String) (f : PermFlags) (a : Authorization) :
    updateAuth token f a =
      { hasUserRead := f.hasUserRead ||
          (a.token == token && a.permissions.any fun p => p.action == "read" && p.resourceType == "users"),
        hasUserWrite := f.hasUserWrite ||
          (a.token == token && a.permissions.any fun p => p.action == "write" && p.resourceType == "users"),
        hasOrganizationsRead := f.hasOrganizationsRead ||
          (a.token == token && a.permissions.any fun p => p.action == "read" && p.resourceType == "orgs"),
        hasOrganizationsWrite := f.hasOrganizationsWrite ||
          (a.token == token && a.permissions.any fun p => p.action == "write" && p.resourceType == "orgs") } := by
  unfold updateAuth
  by_cases h : (a.token == token) = true
  · simp only [h, if_pos, usersFold_spec, orgsFold_spec]
    rcases f with ⟨r, w, og, ow⟩
    simp
  · simp only [Bool.not_eq_true] at h
    rcases f with ⟨r, w, og, ow⟩
    simp [h]

lemma scanAux_spec (token : String) (auths : List Authorization) : ∀ f : PermFlags,
    auths.foldl (updateAuth token) f =
      { hasUserRead := f.hasUserRead || grantsPerm auths token "read" "users",
        hasUserWrite := f.hasUserWrite || grantsPerm auths token "write" "users",
        hasOrganizationsRead := f.hasOrganizationsRead || grantsPerm auths token "read" "orgs",
        hasOrganizationsWrite := f.hasOrganizationsWrite || grantsPerm auths token "write" "orgs" } := by
  induction auths with
  | nil => intro f; simp [grantsPerm]
  | cons a as ih =>
    intro f
    simp only [List.foldl_cons, ih, updateAuth_spec, grantsPerm, List.any_cons]
    simp [Bool.or_assoc]

lemma scanFlags_spec (auths : List Authorization) (token : String) :
    scanFlags auths token =
      { hasUserRead := grantsPerm auths token "read" "users",
        hasUserWrite := grantsPerm auths token "write" "users",
        hasOrganizationsRead := grantsPerm auths token "read" "orgs",
        hasOrganizationsWrite := grantsPerm auths token "write" "orgs" } := by
  unfold scanFlags
  rw [scanAux_spec]
  simp

/-! Helper lemmas shared by the claim theorems. -/

lemma string_append_ne_of_head (p s t : String) (c : Char)
    (hp : p.data.head? = some c) (ht : t.data.head? ≠ some c) :
    p ++ s ≠ t := by
  intro h
  apply ht
  rw [← h]
  have : (p ++ s).data = p.data ++ s.data := String.data_append p s
  rw [this, List.head?_append]
  rw [hp]
  rfl

lemma tlsBase_error_cases (ext : ExtOps) (i : Producer) (e : String)
    (h : tlsBase ext i = .error e) :
    e = "found certificate for TLS authentication but no private key"
    ∨ e = "failed to get TLS configuration"
    ∨ e = "failed to parse certificate bundle" := by
  unfold tlsBase at h
  split at h
  · split at h
    · exact Or.inl (Except.error.injEq .. ▸ h).symm
    · split at h
      · split at h
        · exact Or.inr (Or.inl (Except.error.injEq .. ▸ h).symm)
        · exact absurd h (by simp)
      · exact Or.inr (Or.inr (Except.error.injEq .. ▸ h).symm)
  · exact absurd h (by simp)

lemma buildClient_error_cases (ext : ExtOps) (i : Producer) (e : String)
    (h : buildClient ext i = .error e) :
    e = "found certificate for TLS authentication but no private key"
    ∨ e = "failed to get TLS configuration"
    ∨ e = "failed to parse certificate bundle"
    ∨ e = "invalid 'tls_min_version' in config" := by
  unfold buildClient at h
  split at h
  · split at h
    · rename_i e' he
      rcases tlsBase_error_cases ext i e' he with h1 | h1 | h1 <;>
        simp_all
    · split at h
      · exact absurd h (by simp)
      · split at h
        · simp_all
        · exact absurd h (by simp)
  · exact absurd h (by simp)

lemma isTokenSufficientAccess_total (res : Option (List Authorization))
    (token : String) :
    ((isTokenSufficientAccess res token).1
      || (isTokenSufficientAccess res token).2.isSome) = true := by
  match res with
  | none => rfl
  | some auths =>
    simp only [isTokenSufficientAccess]
    cases h : ((scanFlags auths token).hasUserRead
        && (scanFlags auths token).hasUserWrite
        && (scanFlags auths token).hasOrganizationsRead
        && (scanFlags auths token).hasOrganizationsWrite) <;>
      simp [h]

/-! Claim theorems. -/

/-- Claim C1: the permission verifier accepts a token exactly when,
across all authorization records whose token field equals the supplied
token (case-sensitive string equality), each of the four permissions
(read, users), (write, users), (read, orgs), (write, orgs) appears in
at least one matching record's permission set; the flags accumulate
across all matching records. -/
theorem C1_accept_iff_four_permissions (auths : List Authorization) (token : String) :
    (isTokenSufficientAccess (some auths) token).1 =
      (grantsPerm auths token "read" "users"
        && grantsPerm auths token "write" "users"
        && grantsPerm auths token "read" "orgs"
        && grantsPerm auths token "write" "orgs") := by
  simp only [isTokenSufficientAccess, scanFlags_spec]
  cases h : (grantsPerm auths token "read" "users"
      && grantsPerm auths token "write" "users"
      && grantsPerm auths token "read" "orgs"
      && grantsPerm auths token "write" "orgs") <;>
    simp_all

/-- Claim C8: when the records matching a token grant exactly three of
the four required permissions, the verifier rejects the token and the
error message enumerates all four permission flags individually, each
rendered as its boolean value (so the missing one reports false and
the other three true). -/
theorem C8_rejection_message_enumerates_flags (auths : List Authorization)
    (token : String)
    (h3 : ([grantsPerm auths token "read" "users",
            grantsPerm auths token "write" "users",
            grantsPerm auths token "read" "orgs",
            grantsPerm auths token "write" "orgs"].count true) = 3) :
    (isTokenSufficientAccess (some auths) token).1 = false ∧
    (isTokenSufficientAccess (some auths) token).2 = some
      ("the provided token does not have sufficient permissions in influxdb hasUserRead: "
        ++ boolStr (grantsPerm auths token "read" "users")
        ++ ", hasUserWrite: " ++ boolStr (grantsPerm auths token "write" "users")
        ++ ", hasOrganizationsRead: " ++ boolStr (grantsPerm auths token "read" "orgs")
        ++ ", hasOrganizationsWrite: " ++ boolStr (grantsPerm auths token "write" "orgs")) := by
  cases ha : grantsPerm auths token "read" "users" <;>
    cases hb : grantsPerm auths token "write" "users" <;>
      cases hc : grantsPerm auths token "read" "orgs" <;>
        cases hd : grantsPerm auths token "write" "orgs" <;>
          simp_all [isTokenSufficientAccess, scanFlags_spec, insufficientMsg, boolStr]

/-- Witness for C8 at a concrete input: token `t` with read-users,
write-users and read-orgs but not write-orgs. -/
theorem C8_rejection_message_enumerates_flags_witness :
    ([grantsPerm auths3 "t" "read" "users",
      grantsPerm auths3 "t" "write" "users",
      grantsPerm auths3 "t" "read" "orgs",
      grantsPerm auths3 "t" "write" "orgs"].count true) = 3 ∧
    ((isTokenSufficientAccess (some auths3) "t").1 = false ∧
     (isTokenSufficientAccess (some auths3) "t").2 = some
       ("the provided token does not have sufficient permissions in influxdb hasUserRead: "
         ++ boolStr (grantsPerm auths3 "t" "read" "users")
         ++ ", hasUserWrite: " ++ boolStr (grantsPerm auths3 "t" "write" "users")
         ++ ", hasOrganizationsRead: " ++ boolStr (grantsPerm auths3 "t" "read" "orgs")
         ++ ", hasOrganizationsWrite: " ++ boolStr (grantsPerm auths3 "t" "write" "orgs"))) :=
  ⟨by decide, C8_rejection_message_enumerates_flags auths3 "t" (by decide)⟩

/-- Claim C10: `isTokenSufficientAccess` never returns (false, nil) —
whenever the boolean is false the error is non-nil — and consequently
the branch of `createClient` that returns the generic
missing-permissions message is unreachable: no run of `createClient`
produces that error. -/
theorem C10_generic_permission_branch_unreachable :
    (∀ res token, ((isTokenSufficientAccess res token).1
        || (isTokenSufficientAccess res token).2.isSome) = true)
    ∧ ∀ ext env i, isGenericPermError (createClient ext env i).1 = false := by
  constructor
  · exact isTokenSufficientAccess_total
  · intro ext env i
    unfold createClient
    cases hb : buildClient ext i with
    | error e =>
      rcases buildClient_error_cases ext i e hb with h | h | h | h <;>
        simp [isGenericPermError, h]
    | ok cli =>
      cases hp : env.ping with
      | some perr =>
        simp only [isGenericPermError]
        rw [beq_eq_false_iff_ne]
        exact string_append_ne_of_head _ _ _ 'e' rfl (by decide)
      | none =>
        cases hs : isTokenSufficientAccess env.auths i.conf.Token with
        | mk ok oe =>
          cases oe with
          | some e =>
            simp only [isGenericPermError]
            rw [beq_eq_false_iff_ne]
            exact string_append_ne_of_head _ _ _ 'e' rfl (by decide)
          | none =>
            have hfst := isTokenSufficientAccess_total env.auths i.conf.Token
            rw [hs] at hfst
            simp only [Option.isSome_none, Bool.or_false] at hfst
            simp [hfst, isGenericPermError]

lemma createClient_ok_trace (ext : ExtOps) (env : Env) (i : Producer)
    (c : Client) (tr : List Event)
    (h : createClient ext env i = (.ok c, tr)) :
    tr = [Event.ping, Event.authQuery] := by
  unfold createClient at h
  cases hb : buildClient ext i with
  | error e => rw [hb] at h; simp at h
  | ok cli =>
    rw [hb] at h
    cases hp : env.ping with
    | some perr => rw [hp] at h; simp at h
    | none =>
      rw [hp] at h
      cases hs : isTokenSufficientAccess env.auths i.conf.Token with
      | mk ok oe =>
        rw [hs] at h
        cases oe with
        | some e => simp at h
        | none => cases ok <;> simp_all

lemma createClient_trace_cases (ext : ExtOps) (env : Env) (i : Producer) :
    (createClient ext env i).2 = []
    ∨ (createClient ext env i).2 = [Event.ping]
    ∨ (createClient ext env i).2 = [Event.ping, Event.authQuery] := by
  unfold createClient
  cases hb : buildClient ext i with
  | error e => simp
  | ok cli =>
    cases hp : env.ping with
    | some perr => simp
    | none =>
      cases hs : isTokenSufficientAccess env.auths i.conf.Token with
      | mk ok oe =>
        cases oe with
        | some e => simp
        | none => cases ok <;> simp

lemma Connection_preserves (ext : ExtOps) (env : Env) (i : Producer) :
    (Connection ext env i).1.conf = i.conf
    ∧ (Connection ext env i).1.certificate = i.certificate
    ∧ (Connection ext env i).1.privateKey = i.privateKey
    ∧ (Connection ext env i).1.issuingCA = i.issuingCA
    ∧ (Connection ext env i).1.Initialized = i.Initialized
    ∧ (Connection ext env i).1.rawConfig = i.rawConfig
    ∧ (Connection ext env i).1.connectTimeout = i.connectTimeout := by
  unfold Connection
  cases hI : i.Initialized with
  | false => simp [hI]
  | true =>
    cases hc : i.client with
    | some c => simp [hI, hc]
    | none =>
      cases hcc : createClient ext env i with
      | mk r tr => cases r <;> simp [hI, hc, hcc]

lemma Connection_trace_cases (ext : ExtOps) (env : Env) (i : Producer) :
    (Connection ext env i).2.2 = []
    ∨ (Connection ext env i).2.2 = [Event.ping]
    ∨ (Connection ext env i).2.2 = [Event.ping, Event.authQuery] := by
  unfold Connection
  cases hI : i.Initialized with
  | false => simp [hI]
  | true =>
    cases hc : i.client with
    | some c => simp [hI, hc]
    | none =>
      have := createClient_trace_cases ext env i
      cases hcc : createClient ext env i with
      | mk r tr =>
        rw [hcc] at this
        cases r <;> simpa [hI, hc, hcc] using this

/-- Claim C5: on an initialized producer with no cached handle, when
establishment succeeds, the first Connection() call performs exactly
one probe/permission-check sequence (one ping, one authorization
query), caches the handle, and the second call returns the identical
handle with no network events and no state change. -/
theorem C5_fast_path_idempotent (ext : ExtOps) (env : Env) (i : Producer)
    (c : Client) (tr : List Event)
    (hinit : i.Initialized = true) (hnone : i.client = none)
    (hcc : createClient ext env i = (.ok c, tr)) :
    Connection ext env i =
      ({ i with client := some c }, .ok c, [Event.ping, Event.authQuery])
    ∧ Connection ext env { i with client := some c } =
        ({ i with client := some c }, .ok c, []) := by
  have htr : tr = [Event.ping, Event.authQuery] :=
    createClient_ok_trace ext env i c tr hcc
  subst htr
  constructor
  · unfold Connection
    simp [hinit, hnone, hcc]
  · unfold Connection
    simp [hinit]

/-- Witness for C5: the concrete plaintext producer `prodReady` under
the healthy environment `envOk`. -/
theorem C5_fast_path_idempotent_witness :
    (prodReady.Initialized = true ∧ prodReady.client = none
      ∧ createClient extSample envOk prodReady =
          (.ok cliPlain, [Event.ping, Event.authQuery]))
    ∧ (Connection extSample envOk prodReady =
        ({ prodReady with client := some cliPlain }, .ok cliPlain,
         [Event.ping, Event.authQuery])
      ∧ Connection extSample envOk { prodReady with client := some cliPlain } =
          ({ prodReady with client := some cliPlain }, .ok cliPlain, [])) :=
  ⟨⟨by decide, by decide, by decide⟩,
    C5_fast_path_idempotent extSample envOk prodReady cliPlain
      [Event.ping, Event.authQuery] (by decide) (by decide) (by decide)⟩

/-- Claim C2 (amended): when the probe succeeds but the permission check
rejects the token, the handle is not cached — the producer state is
completely unchanged, so a later Connection() retries the whole
sequence — and the returned error wraps the permission diagnostic in
the introspection-wrapper message; the handle is NOT closed (the trace
holds no close event). -/
theorem C2_permission_reject_discards_without_close (ext : ExtOps) (env : Env)
    (i : Producer) (cli : Client)
    (hinit : i.Initialized = true) (hnone : i.client = none)
    (hbuild : buildClient ext i = .ok cli)
    (hping : env.ping = none)
    (hrej : (isTokenSufficientAccess env.auths i.conf.Token).1 = false) :
    ∃ m, (isTokenSufficientAccess env.auths i.conf.Token).2 = some m
    ∧ Connection ext env i =
        (i, .error ("error getting if provided username is admin: " ++ m),
         [Event.ping, Event.authQuery])
    ∧ ([Event.ping, Event.authQuery].all fun e => !(isCloseEvent e)) = true := by
  have htot := isTokenSufficientAccess_total env.auths i.conf.Token
  rw [hrej] at htot
  simp only [Bool.false_or] at htot
  cases hs : isTokenSufficientAccess env.auths i.conf.Token with
  | mk ok oe =>
    rw [hs] at hrej htot
    cases oe with
    | none => simp at htot
    | some m =>
      refine ⟨m, rfl, ?_, by decide⟩
      unfold Connection createClient
      simp [hinit, hnone, hbuild, hping, hs]

/-- Witness for C2 (amended): the environment `envShort` whose token
lacks write-orgs, against the initialized plaintext producer. -/
theorem C2_permission_reject_discards_without_close_witness :
    (prodReady.Initialized = true ∧ prodReady.client = none
      ∧ buildClient extSample prodReady = .ok cliPlain
      ∧ envShort.ping = none
      ∧ (isTokenSufficientAccess envShort.auths prodReady.conf.Token).1 = false)
    ∧ ∃ m, (isTokenSufficientAccess envShort.auths prodReady.conf.Token).2 = some m
      ∧ Connection extSample envShort prodReady =
          (prodReady, .error ("error getting if provided username is admin: " ++ m),
           [Event.ping, Event.authQuery])
      ∧ ([Event.ping, Event.authQuery].all fun e => !(isCloseEvent e)) = true :=
  ⟨⟨by decide, by decide, by decide, by decide, by decide⟩,
    C2_permission_reject_discards_without_close extSample envShort prodReady
      cliPlain (by decide) (by decide) (by decide) (by decide) (by decide)⟩

set_option maxRecDepth 8192 in
/-- Counterexample to C2 as stated: at prodReady/envShort the
permission check rejects, the error is returned and nothing is cached,
but the trace contains no close event — the rejected handle is leaked,
not closed (and the error surfaces through the introspection wrapper
rather than the producer's dedicated permission branch). -/
theorem C2_handle_not_closed_counterexample :
    Connection extSample envShort prodReady =
      (prodReady,
       .error ("error getting if provided username is admin: "
         ++ "the provided token does not have sufficient permissions in influxdb hasUserRead: true, hasUserWrite: true, hasOrganizationsRead: true, hasOrganizationsWrite: false"),
       [Event.ping, Event.authQuery])
    ∧ ((Connection extSample envShort prodReady).2.2.all
        fun e => !(isCloseEvent e)) = true := by
  constructor
  · decide
  · decide

/-- Claim C3 (amended): only Initialize and Close bracket their bodies
with the mutual-exclusion lock; Connection and secretValues perform no
lock operation at all, so the single-lock discipline claimed for all
four public operations does not hold. -/
theorem C3_only_initialize_and_close_lock :
    (∀ ext env i req, ∃ body, (Initialize ext env i req).2.2
        = Event.lockAcquire :: body ++ [Event.lockRelease])
    ∧ (∀ i, ∃ body, (Close i).2
        = Event.lockAcquire :: body ++ [Event.lockRelease])
    ∧ (∀ ext env i,
        ((Connection ext env i).2.2.contains Event.lockAcquire
          || (Connection ext env i).2.2.contains Event.lockRelease) = false)
    ∧ ∀ i, (secretValues i).2 = [] := by
  refine ⟨?_, ?_, ?_, fun i => rfl⟩
  · intro ext env i req
    unfold Initialize
    split
    · exact ⟨[], rfl⟩
    · split
      · exact ⟨[], rfl⟩
      · split
        · exact ⟨[], rfl⟩
        · split
          · exact ⟨[], rfl⟩
          · split
            · exact ⟨[], rfl⟩
            · split
              · split
                · exact ⟨_, rfl⟩
                · exact ⟨_, rfl⟩
              · exact ⟨[], rfl⟩
  · intro i
    unfold Close
    cases i.client with
    | some c => exact ⟨[Event.closeClient c], rfl⟩
    | none => exact ⟨[], rfl⟩
  · intro ext env i
    rcases Connection_trace_cases ext env i with h | h | h <;> rw [h] <;> decide

/-- Counterexample to C3 as stated: Connection() on an initialized
producer with a cached handle, and secretValues(), both run without
ever acquiring the lock. -/
theorem C3_connection_takes_no_lock_counterexample :
    (Connection extSample envOk
        { prodReady with client := some cliPlain }).2.2.contains
      Event.lockAcquire = false
    ∧ (secretValues prodReady).2.contains Event.lockAcquire = false := by
  constructor
  · decide
  · decide

/-- Claim C4 (amended): when the decoded connect-timeout value cannot
be parsed as a duration, Initialize returns the validation error and
neither marks the producer initialized nor touches the cached client or
certificate fields — but the raw configuration map and the weak-decoded
public fields (with the port and timeout defaults applied) ARE
persisted on the producer before the failure, so the state does not
equal its pre-call value. -/
theorem C4_timeout_failure_keeps_decoded_fields (ext : ExtOps) (env : Env)
    (i : Producer) (req : InitializeRequest) (conf0 : ConfigFields)
    (hdec : ext.weakDecode req.Config i.conf = some conf0)
    (hpd : ext.parseDuration (conf0.ConnectTimeoutRaw.getD "5s") = none) :
    Initialize ext env i req =
      ({ i with
         rawConfig := req.Config
         conf := applyDefaults conf0
         connectTimeout := 0 },
       .error "invalid connect_timeout", [Event.lockAcquire, Event.lockRelease])
    ∧ (Initialize ext env i req).1.Initialized = i.Initialized
    ∧ (Initialize ext env i req).1.client = i.client
    ∧ (Initialize ext env i req).1.certificate = i.certificate
    ∧ (Initialize ext env i req).1.privateKey = i.privateKey
    ∧ (Initialize ext env i req).1.rawConfig = req.Config := by
  have h1 : Initialize ext env i req =
      ({ i with
         rawConfig := req.Config
         conf := applyDefaults conf0
         connectTimeout := 0 },
       .error "invalid connect_timeout", [Event.lockAcquire, Event.lockRelease]) := by
    simp only [Initialize, hdec, hpd]
  exact ⟨h1, by rw [h1], by rw [h1], by rw [h1], by rw [h1], by rw [h1]⟩

/-- Witness for C4 (amended): the concrete unparseable-timeout request
against the zero-valued producer. -/
theorem C4_timeout_failure_keeps_decoded_fields_witness :
    (extSample.weakDecode reqBadTimeout.Config initialProducer.conf = some
      { initialProducer.conf with
        Host := "h", Token := "t", ConnectTimeoutRaw := some "bogus" }
     ∧ extSample.parseDuration "bogus" = none)
    ∧ Initialize extSample envOk initialProducer reqBadTimeout =
      ({ initialProducer with
         rawConfig := reqBadTimeout.Config
         conf := applyDefaults { initialProducer.conf with
           Host := "h", Token := "t", ConnectTimeoutRaw := some "bogus" }
         connectTimeout := 0 },
       .error "invalid connect_timeout",
       [Event.lockAcquire, Event.lockRelease]) :=
  ⟨⟨by decide, by decide⟩,
    (C4_timeout_failure_keeps_decoded_fields extSample envOk initialProducer
      reqBadTimeout
      { initialProducer.conf with
        Host := "h", Token := "t", ConnectTimeoutRaw := some "bogus" }
      (by decide) (by decide)).1⟩

/-- Counterexample to C4 as stated: on the unparseable-timeout request
the error is returned, yet the producer's host field and raw
configuration map have been persisted — the state after the failed call
differs from the state before it. -/
theorem C4_state_mutated_counterexample :
    (Initialize extSample envOk initialProducer reqBadTimeout).2.1 =
      .error "invalid connect_timeout"
    ∧ (Initialize extSample envOk initialProducer reqBadTimeout).1.conf.Host = "h"
    ∧ initialProducer.conf.Host = ""
    ∧ (Initialize extSample envOk initialProducer reqBadTimeout).1.rawConfig =
        [("host", "h"), ("token", "t"), ("connect_timeout", "bogus")]
    ∧ initialProducer.rawConfig = [] := by
  refine ⟨by decide, by decide, by decide, by decide, by decide⟩

/-- Claim C9: whenever the client handle is constructed, its URL is
http://host:port — the scheme is http regardless of the TLS flag;
enabling TLS only attaches a TLS configuration to the client options,
it never changes the URL. -/
theorem C9_url_scheme_always_http (ext : ExtOps) (i : Producer) (c : Client)
    (h : buildClient ext i = .ok c) :
    c.url = "http://" ++ i.conf.Host ++ ":" ++ i.conf.Port
    ∧ c.token = i.conf.Token
    ∧ (i.conf.TLS = false → c.tlsOpts = none)
    ∧ (i.conf.TLS = true → c.tlsOpts.isSome = true) := by
  unfold buildClient at h
  split at h
  · rename_i hT
    split at h
    · simp at h
    · split at h
      · rw [← Except.ok.inj h]
        simp [hT]
      · split at h
        · simp at h
        · rw [← Except.ok.inj h]
          simp [hT]
  · rename_i hT
    rw [← Except.ok.inj h]
    simp only [Bool.not_eq_true] at hT
    simp [hT]

/-- Witness for C9: the plaintext producer's constructed client. -/
theorem C9_url_scheme_always_http_witness :
    buildClient extSample prodReady = .ok cliPlain
    ∧ (cliPlain.url = "http://" ++ prodReady.conf.Host ++ ":" ++ prodReady.conf.Port
      ∧ cliPlain.token = prodReady.conf.Token
      ∧ (prodReady.conf.TLS = false → cliPlain.tlsOpts = none)
      ∧ (prodReady.conf.TLS = true → cliPlain.tlsOpts.isSome = true)) :=
  ⟨by decide, C9_url_scheme_always_http extSample prodReady cliPlain (by decide)⟩

lemma certAssembly_ok_cases (ext : ExtOps) (p q : Producer)
    (h : certAssembly ext p = .ok q) :
    q = p ∨ q.conf.TLS = true := by
  unfold certAssembly at h
  split at h
  · cases hp : ext.parsePKIJSON p.conf.PemJSON with
    | none => rw [hp] at h; simp at h
    | some b =>
      rw [hp] at h
      right
      rw [← Except.ok.inj h]
  · split at h
    · cases hp : ext.parsePEMBundle p.conf.PemBundle with
      | none => rw [hp] at h; simp at h
      | some b =>
        rw [hp] at h
        right
        rw [← Except.ok.inj h]
    · left
      exact (Except.ok.inj h).symm

lemma Initialize_cert_cases (ext : ExtOps) (env : Env) (i : Producer)
    (req : InitializeRequest) :
    (Initialize ext env i req).1.certificate = i.certificate
    ∨ (Initialize ext env i req).1.conf.TLS = true := by
  unfold Initialize
  split
  · left; rfl
  · split
    · left; rfl
    · split
      · left; rfl
      · split
        · left; rfl
        · split
          · left; rfl
          · rename_i i2 hca
            rcases certAssembly_ok_cases _ _ _ hca with hq | hq
            · split
              · split
                · rename_i hconn
                  left
                  have hpres := (Connection_preserves ext env
                    { i2 with Initialized := true }).2.1
                  rw [hconn] at hpres
                  simpa [hq] using hpres
                · rename_i hconn
                  left
                  have hpres := (Connection_preserves ext env
                    { i2 with Initialized := true }).2.1
                  rw [hconn] at hpres
                  simpa [hq] using hpres
              · left; simp [hq]
            · split
              · split
                · rename_i hconn
                  right
                  have hpres := (Connection_preserves ext env
                    { i2 with Initialized := true }).1
                  rw [hconn] at hpres
                  dsimp only at hpres
                  rw [hpres]
                  simpa using hq
                · rename_i hconn
                  right
                  have hpres := (Connection_preserves ext env
                    { i2 with Initialized := true }).1
                  rw [hconn] at hpres
                  dsimp only at hpres
                  rw [hpres]
                  simpa using hq
              · right; simpa using hq

/-- Claim C7: a state holding a certificate but no private key makes
`createClient` fail with the dedicated error before any TLS
configuration is attempted (the result is the same for every oracle
assignment and carries no network events); and any producer that
Initialize endows with a certificate also has the TLS flag forced on,
so the TLS branch performing this check is the one that runs. -/
theorem C7_cert_without_key_fails_before_tls :
    (∀ ext env i, i.conf.TLS = true → 0 < i.certificate.length →
      i.privateKey.length = 0 →
      createClient ext env i =
        (.error "found certificate for TLS authentication but no private key", []))
    ∧ ∀ ext env i req, i.certificate.length = 0 →
        0 < ((Initialize ext env i req).1).certificate.length →
        ((Initialize ext env i req).1).conf.TLS = true := by
  constructor
  · intro ext env i hT hc hk
    have h1 : (i.certificate.length > 0 || i.issuingCA.length > 0) = true := by
      simp only [Bool.or_eq_true, decide_eq_true_eq]
      exact Or.inl hc
    have h2 : (i.certificate.length > 0 && i.privateKey.length == 0) = true := by
      simp only [Bool.and_eq_true, decide_eq_true_eq, beq_iff_eq]
      exact ⟨hc, hk⟩
    unfold createClient buildClient tlsBase
    simp [hT, h1, h2]
  · intro ext env i req hc0 hpos
    rcases Initialize_cert_cases ext env i req with hq | hq
    · rw [hq, hc0] at hpos
      exact absurd hpos (by simp)
    · exact hq

/-- Witness for C7: a TLS producer carrying a certificate but no key
fails early; and initializing with the JSON bundle forces TLS on. -/
theorem C7_cert_without_key_fails_before_tls_witness :
    (({ prodReady with
        conf := { prodReady.conf with TLS := true }
        certificate := "CERT" } : Producer).conf.TLS = true
      ∧ 0 < ("CERT" : String).length
      ∧ ("" : String).length = 0
      ∧ createClient extSample envOk
          { prodReady with
            conf := { prodReady.conf with TLS := true }
            certificate := "CERT" } =
        (.error "found certificate for TLS authentication but no private key", []))
    ∧ (prodPemJSON.certificate.length = 0
      ∧ 0 < ((Initialize extSample envOk prodPemJSON reqPlain).1).certificate.length
      ∧ ((Initialize extSample envOk prodPemJSON reqPlain).1).conf.TLS = true) :=
  ⟨⟨by decide, by decide, by decide,
    C7_cert_without_key_fails_before_tls.1 extSample envOk
      { prodReady with
        conf := { prodReady.conf with TLS := true }
        certificate := "CERT" } (by decide) (by decide) (by decide)⟩,
   ⟨by decide, by decide,
    C7_cert_without_key_fails_before_tls.2 extSample envOk prodPemJSON reqPlain
      (by decide) (by decide)⟩⟩

/-- Claim C6: during Initialize the JSON-form bundle field is evaluated
before the PEM-form bundle field and exactly one path executes: with a
non-empty JSON field the PEM parser is never consulted (replacing it by
an always-failing one changes nothing); whichever path runs stores the
(certificate, private key, issuing-CA) triple and forces the TLS flag
on; when both fields are empty the TLS flag keeps the caller-configured
boolean and the certificate fields stay unchanged (empty for a fresh
producer). -/
theorem C6_cert_assembly_priority (ext : ExtOps) (env : Env) (i : Producer)
    (req : InitializeRequest) (conf0 : ConfigFields) (d : Nat)
    (hdec : ext.weakDecode req.Config i.conf = some conf0)
    (hpd : ext.parseDuration (conf0.ConnectTimeoutRaw.getD "5s") = some d)
    (hhost : conf0.Host.length ≠ 0)
    (htok : conf0.Token.length ≠ 0)
    (hver : req.VerifyConnection = false) :
    (∀ b, conf0.PemJSON.length ≠ 0 → ext.parsePKIJSON conf0.PemJSON = some b →
      Initialize ext env i req =
        ({ i with
           rawConfig := req.Config
           conf := { applyDefaults conf0 with TLS := true }
           connectTimeout := d
           certificate := b.Certificate
           privateKey := b.PrivateKey
           issuingCA := b.IssuingCA
           Initialized := true },
         .ok req.Config, [Event.lockAcquire, Event.lockRelease])
      ∧ Initialize { ext with parsePEMBundle := fun _ => none } env i req
          = Initialize ext env i req)
    ∧ (∀ b, conf0.PemJSON.length = 0 → conf0.PemBundle.length ≠ 0 →
        ext.parsePEMBundle conf0.PemBundle = some b →
        Initialize ext env i req =
          ({ i with
             rawConfig := req.Config
             conf := { applyDefaults conf0 with TLS := true }
             connectTimeout := d
             certificate := b.Certificate
             privateKey := b.PrivateKey
             issuingCA := b.IssuingCA
             Initialized := true },
           .ok req.Config, [Event.lockAcquire, Event.lockRelease]))
    ∧ (conf0.PemJSON.length = 0 → conf0.PemBundle.length = 0 →
        Initialize ext env i req =
          ({ i with
             rawConfig := req.Config
             conf := applyDefaults conf0
             connectTimeout := d
             Initialized := true },
           .ok req.Config, [Event.lockAcquire, Event.lockRelease])) := by
  have hh' : ¬((applyDefaults conf0).Host.length = 0) := by
    simpa [applyDefaults] using hhost
  have ht' : ¬((applyDefaults conf0).Token.length = 0) := by
    simpa [applyDefaults] using htok
  have main : ∀ (E : ExtOps),
      E.weakDecode req.Config i.conf = some conf0 →
      E.parseDuration (conf0.ConnectTimeoutRaw.getD "5s") = some d →
      ∀ i2, certAssembly E { i with
          rawConfig := req.Config
          conf := applyDefaults conf0
          connectTimeout := d } = .ok i2 →
      Initialize E env i req =
        ({ i2 with Initialized := true }, .ok req.Config,
         [Event.lockAcquire, Event.lockRelease]) := by
    intro E hdE hpE i2 hca
    simp only [Initialize, hdE, hpE, if_neg hh', if_neg ht', hca, hver]
    simp
  refine ⟨?_, ?_, ?_⟩
  · intro b hj hb
    have hj' : (({ i with
        rawConfig := req.Config
        conf := applyDefaults conf0
        connectTimeout := d } : Producer)).conf.PemJSON.length ≠ 0 := by
      simpa [applyDefaults] using hj
    have hca : certAssembly ext { i with
        rawConfig := req.Config
        conf := applyDefaults conf0
        connectTimeout := d } = .ok { i with
        rawConfig := req.Config
        conf := { applyDefaults conf0 with TLS := true }
        connectTimeout := d
        certificate := b.Certificate
        privateKey := b.PrivateKey
        issuingCA := b.IssuingCA } := by
      unfold certAssembly
      rw [if_pos hj']
      simp [applyDefaults] at hb ⊢
      simp [hb]
    have hca' : certAssembly { ext with parsePEMBundle := fun _ => none }
        { i with
          rawConfig := req.Config
          conf := applyDefaults conf0
          connectTimeout := d } = .ok { i with
        rawConfig := req.Config
        conf := { applyDefaults conf0 with TLS := true }
        connectTimeout := d
        certificate := b.Certificate
        privateKey := b.PrivateKey
        issuingCA := b.IssuingCA } := by
      unfold certAssembly
      rw [if_pos hj']
      simp [applyDefaults] at hb ⊢
      simp [hb]
    refine ⟨main ext hdec hpd _ hca, ?_⟩
    rw [main { ext with parsePEMBundle := fun _ => none } hdec hpd _ hca',
        main ext hdec hpd _ hca]
  · intro b hj hpb hb
    have hj' : ¬(({ i with
        rawConfig := req.Config
        conf := applyDefaults conf0
        connectTimeout := d } : Producer)).conf.PemJSON.length ≠ 0 := by
      simpa [applyDefaults] using hj
    have hpb' : (({ i with
        rawConfig := req.Config
        conf := applyDefaults conf0
        connectTimeout := d } : Producer)).conf.PemBundle.length ≠ 0 := by
      simpa [applyDefaults] using hpb
    have hca : certAssembly ext { i with
        rawConfig := req.Config
        conf := applyDefaults conf0
        connectTimeout := d } = .ok { i with
        rawConfig := req.Config
        conf := { applyDefaults conf0 with TLS := true }
        connectTimeout := d
        certificate := b.Certificate
        privateKey := b.PrivateKey
        issuingCA := b.IssuingCA } := by
      unfold certAssembly
      rw [if_neg hj', if_pos hpb']
      simp [applyDefaults] at hb ⊢
      simp [hb]
    exact main ext hdec hpd _ hca
  · intro hj hpb
    have hj' : ¬(({ i with
        rawConfig := req.Config
        conf := applyDefaults conf0
        connectTimeout := d } : Producer)).conf.PemJSON.length ≠ 0 := by
      simpa [applyDefaults] using hj
    have hpb' : ¬(({ i with
        rawConfig := req.Config
        conf := applyDefaults conf0
        connectTimeout := d } : Producer)).conf.PemBundle.length ≠ 0 := by
      simpa [applyDefaults] using hpb
    have hca : certAssembly ext { i with
        rawConfig := req.Config
        conf := applyDefaults conf0
        connectTimeout := d } = .ok { i with
        rawConfig := req.Config
        conf := applyDefaults conf0
        connectTimeout := d } := by
      unfold certAssembly
      rw [if_neg hj', if_neg hpb']
    exact main ext hdec hpd _ hca

/-- Witness for C6: the fresh producer carrying a JSON-form bundle,
initialized with host/token config under the sample oracles. -/
theorem C6_cert_assembly_priority_witness :
    (extSample.weakDecode reqPlain.Config prodPemJSON.conf = some
        { prodPemJSON.conf with Host := "h", Token := "t" }
      ∧ extSample.parseDuration
          (({ prodPemJSON.conf with
              Host := "h", Token := "t" } : ConfigFields).ConnectTimeoutRaw.getD "5s")
          = some 5000000000
      ∧ ("jsonbundle" : String).length ≠ 0
      ∧ extSample.parsePKIJSON "jsonbundle" = some ⟨"CERT", "KEY", "CA"⟩
      ∧ reqPlain.VerifyConnection = false)
    ∧ Initialize extSample envOk prodPemJSON reqPlain =
        ({ prodPemJSON with
           rawConfig := reqPlain.Config
           conf := { applyDefaults { prodPemJSON.conf with
             Host := "h", Token := "t" } with TLS := true }
           connectTimeout := 5000000000
           certificate := "CERT"
           privateKey := "KEY"
           issuingCA := "CA"
           Initialized := true },
         .ok reqPlain.Config, [Event.lockAcquire, Event.lockRelease])
    ∧ Initialize { extSample with parsePEMBundle := fun _ => none }
        envOk prodPemJSON reqPlain =
        Initialize extSample envOk prodPemJSON reqPlain :=
  ⟨⟨by decide, by decide, by decide, by decide, by decide⟩,
    ((C6_cert_assembly_priority extSample envOk prodPemJSON reqPlain
        { prodPemJSON.conf with Host := "h", Token := "t" } 5000000000
        (by decide) (by decide) (by decide) (by decide) (by decide)).1
      ⟨"CERT", "KEY", "CA"⟩ (by decide) (by decide)).1,
    ((C6_cert_assembly_priority extSample envOk prodPemJSON reqPlain
        { prodPemJSON.conf with Host := "h", Token := "t" } 5000000000
        (by decide) (by decide) (by decide) (by decide) (by decide)).1
      ⟨"CERT", "KEY", "CA"⟩ (by decide) (by decide)).2⟩

end Influxdbv2
